import Mathlib

/-!
Verification of the configuration-resolution and pipeline-dispatch layer of
`qiskit/transpiler/preset_passmanagers/__init__.py` (`generate_preset_pass_manager`),
together with the mock-device fixture records in
`qiskit/test/mock/backends/{london,montreal}`.

Modelling conventions:
* Python values that may be `None` become `Option _`.
* Python calls that may raise become `Except Err _`; exception propagation is the
  `Except` bind, so evaluation order of fallible calls is observable.
* Device-descriptor payloads (coupling maps, duration tables, ...) are opaque to
  this layer: they are only moved around, never inspected, so they are modelled
  by simple concrete carrier types.
* The four level-specific pass-manager builders (`level_0_pass_manager` ...) are
  external collaborators whose sources are not given; the dispatcher is
  parametrised over them, so every theorem below holds for all builders.
-/

namespace Qiskit

/-- Allowed-interaction graph over physical qubit indices (edge list). -/
abbrev CouplingMap := List (Nat × Nat)

/-- Per-instruction duration table (instruction name to duration in dt). -/
abbrev InstructionDurations := List (String × Nat)

/-- Calibration schedule map: instruction name to a timed pulse sequence. -/
abbrev InstructionScheduleMap := List (String × List Nat)

/-- Hardware time-alignment restrictions. -/
structure TimingConstraints where
  granularity : Nat
  min_length : Nat
  pulse_alignment : Nat
  acquire_alignment : Nat
deriving DecidableEq

/-- Gate/readout error and coherence data, keyed by name. -/
abbrev BackendProperties := List (String × Int)

/-- Initial placement of virtual qubits on physical qubits. -/
abbrev Layout := List (Nat × Nat)

/-- Opaque configuration record handed to a unitary-synthesis plugin. -/
abbrev PluginConfig := List (String × String)

/-- Approximation degree: a number in [0,1]; only ever passed through here. -/
abbrev ApproximationDegree := Rat

/-- Errors that can propagate out of this layer. `valueError` embeds the Python
`ValueError`; `transpilerError` stands for any exception raised by a device
descriptor accessor or by backend-based config construction. -/
inductive Err where
  | valueError (msg : String)
  | transpilerError (msg : String)
deriving DecidableEq

/-- A `Target` compilation-target descriptor, seen through the six accessors
that `generate_preset_pass_manager` consults. Each accessor is a fallible call
(in Python an attribute access or method call that may raise), so it is
modelled as an `Except` result. The `backend_properties` field carries the
result of the target-to-properties conversion (see
`target_to_backend_properties`). -/
structure Target where
  build_coupling_map : Except Err CouplingMap
  operation_names : Except Err (List String)
  durations : Except Err InstructionDurations
  instruction_schedule_map : Except Err InstructionScheduleMap
  timing_constraints : Except Err TimingConstraints
  backend_properties : Except Err BackendProperties

/-- Modelled from the spec: `target_to_backend_properties` (imported from
`qiskit.transpiler.target`, whose source is not among the given files) is the
"target-to-properties conversion"; it is modelled as the fallible accessor on
the target that yields the converted property table. -/
def target_to_backend_properties (t : Target) : Except Err BackendProperties :=
  t.backend_properties

/-- A legacy backend descriptor, seen through the six derivable-field accessors
of the DeviceDescriptor contract of the spec. -/
structure Backend where
  basis_gates : Except Err (List String)
  inst_map : Except Err InstructionScheduleMap
  coupling_map : Except Err CouplingMap
  instruction_durations : Except Err InstructionDurations
  backend_properties : Except Err BackendProperties
  timing_constraints : Except Err TimingConstraints

/-- The canonical resolved configuration bundle consumed by pipeline builders.
Field set and order follow the `pm_options` dictionary of
`generate_preset_pass_manager`. -/
structure PassManagerConfig where
  target : Option Target
  basis_gates : Option (List String)
  inst_map : Option InstructionScheduleMap
  coupling_map : Option CouplingMap
  instruction_durations : Option InstructionDurations
  backend_properties : Option BackendProperties
  timing_constraints : Option TimingConstraints
  layout_method : Option String
  routing_method : Option String
  translation_method : Option String
  scheduling_method : Option String
  approximation_degree : Option ApproximationDegree
  seed_transpiler : Option Int
  unitary_synthesis_method : String
  unitary_synthesis_plugin_config : Option PluginConfig
  initial_layout : Option Layout

/-- The pass manager ("Pipeline") returned to the caller; its stage structure
is produced by the external level builders and is opaque to the dispatcher. -/
structure PassManager where
  stages : List String
deriving DecidableEq

/-- One `if field is None: field = derive()` step of the source: keep an
explicitly supplied (non-absent) value verbatim; only when the field is absent
is the fallible derivation consulted, and its exception propagates. -/
def fillAbsent {α : Type} (explicit : Option α) (derive : Except Err α) :
    Except Err (Option α) :=
  match explicit with
  | some v => Except.ok (some v)
  | none => derive.map some

/-- Modelled from the spec: `PassManagerConfig.from_backend` (the
`PassManagerConfig` class source is not among the given files; only its caller
is). Per the precedence algebra of the spec, backend-based construction derives from
the backend exactly those derived fields that are still absent in the supplied
options, and leaves every non-absent field and every non-derived field
unchanged. -/
def PassManagerConfig.from_backend (b : Backend) (o : PassManagerConfig) :
    Except Err PassManagerConfig :=
  (fillAbsent o.basis_gates b.basis_gates).bind fun basis_gates =>
  (fillAbsent o.inst_map b.inst_map).bind fun inst_map =>
  (fillAbsent o.coupling_map b.coupling_map).bind fun coupling_map =>
  (fillAbsent o.instruction_durations b.instruction_durations).bind fun instruction_durations =>
  (fillAbsent o.backend_properties b.backend_properties).bind fun backend_properties =>
  (fillAbsent o.timing_constraints b.timing_constraints).map fun timing_constraints =>
  { o with
    basis_gates := basis_gates
    inst_map := inst_map
    coupling_map := coupling_map
    instruction_durations := instruction_durations
    backend_properties := backend_properties
    timing_constraints := timing_constraints }

/-- Lines 144-180 of `generate_preset_pass_manager`: if a target was supplied,
fill each still-absent derived field from the corresponding target accessor (in
source order: coupling map, basis gates, instruction durations, inst map,
timing constraints, backend properties); package everything as `pm_options`;
then hand the options to backend-based construction when a backend was
supplied, and to the plain constructor otherwise. -/
def resolveConfig (backend : Option Backend) (target : Option Target)
    (basis_gates : Option (List String)) (inst_map : Option InstructionScheduleMap)
    (coupling_map : Option CouplingMap)
    (instruction_durations : Option InstructionDurations)
    (backend_properties : Option BackendProperties)
    (timing_constraints : Option TimingConstraints)
    (initial_layout : Option Layout)
    (layout_method : Option String) (routing_method : Option String)
    (translation_method : Option String) (scheduling_method : Option String)
    (approximation_degree : Option ApproximationDegree)
    (seed_transpiler : Option Int)
    (unitary_synthesis_method : String)
    (unitary_synthesis_plugin_config : Option PluginConfig) :
    Except Err PassManagerConfig :=
  (match target with
   | none =>
      Except.ok (coupling_map, basis_gates, instruction_durations, inst_map,
        timing_constraints, backend_properties)
   | some t =>
      (fillAbsent coupling_map t.build_coupling_map).bind fun coupling_map =>
      (fillAbsent basis_gates t.operation_names).bind fun basis_gates =>
      (fillAbsent instruction_durations t.durations).bind fun instruction_durations =>
      (fillAbsent inst_map t.instruction_schedule_map).bind fun inst_map =>
      (fillAbsent timing_constraints t.timing_constraints).bind fun timing_constraints =>
      (fillAbsent backend_properties (target_to_backend_properties t)).map fun backend_properties =>
      (coupling_map, basis_gates, instruction_durations, inst_map,
        timing_constraints, backend_properties)).bind fun filled =>
  let pm_options : PassManagerConfig :=
    { target := target
      basis_gates := filled.2.1
      inst_map := filled.2.2.2.1
      coupling_map := filled.1
      instruction_durations := filled.2.2.1
      backend_properties := filled.2.2.2.2.2
      timing_constraints := filled.2.2.2.2.1
      layout_method := layout_method
      routing_method := routing_method
      translation_method := translation_method
      scheduling_method := scheduling_method
      approximation_degree := approximation_degree
      seed_transpiler := seed_transpiler
      unitary_synthesis_method := unitary_synthesis_method
      unitary_synthesis_plugin_config := unitary_synthesis_plugin_config
      initial_layout := initial_layout }
  match backend with
  | some b => PassManagerConfig.from_backend b pm_options
  | none => Except.ok pm_options

/-- The function `generate_preset_pass_manager`: resolve the configuration (lines 144-180),
then dispatch on the optimization level (lines 182-191). The four level
builders are the external collaborators `level_0_pass_manager` ...
`level_3_pass_manager`, passed as parameters `lvl0` ... `lvl3`. -/
def generate_preset_pass_manager
    (lvl0 lvl1 lvl2 lvl3 : PassManagerConfig → PassManager)
    (optimization_level : Int)
    (backend : Option Backend) (target : Option Target)
    (basis_gates : Option (List String)) (inst_map : Option InstructionScheduleMap)
    (coupling_map : Option CouplingMap)
    (instruction_durations : Option InstructionDurations)
    (backend_properties : Option BackendProperties)
    (timing_constraints : Option TimingConstraints)
    (initial_layout : Option Layout)
    (layout_method : Option String) (routing_method : Option String)
    (translation_method : Option String) (scheduling_method : Option String)
    (approximation_degree : Option ApproximationDegree)
    (seed_transpiler : Option Int)
    (unitary_synthesis_method : String)
    (unitary_synthesis_plugin_config : Option PluginConfig) :
    Except Err PassManager :=
  (resolveConfig backend target basis_gates inst_map coupling_map
      instruction_durations backend_properties timing_constraints initial_layout
      layout_method routing_method translation_method scheduling_method
      approximation_degree seed_transpiler unitary_synthesis_method
      unitary_synthesis_plugin_config).bind fun pm_config =>
  if optimization_level = 0 then Except.ok (lvl0 pm_config)
  else if optimization_level = 1 then Except.ok (lvl1 pm_config)
  else if optimization_level = 2 then Except.ok (lvl2 pm_config)
  else if optimization_level = 3 then Except.ok (lvl3 pm_config)
  else Except.error (Err.valueError s!"Invalid optimization level {optimization_level}")

/-- A record of the class-level static fields of a mock-device fixture class
from `qiskit/test/mock/backends`. -/
structure FakeBackendFixture where
  dirname : String
  conf_filename : String
  props_filename : String
  defs_filename : Option String
  backend_name : String
deriving DecidableEq

/-- Record `FakeLondonV2`: structured (target-based) variant of the fake 5-qubit
London device. -/
def FakeLondonV2 : FakeBackendFixture :=
  { dirname := "qiskit/test/mock/backends/london"
    conf_filename := "conf_london.json"
    props_filename := "props_london.json"
    defs_filename := none
    backend_name := "fake_london_v2" }

/-- Record `FakeLondon`: legacy (backend-based) variant of the fake 5-qubit London
device. -/
def FakeLondon : FakeBackendFixture :=
  { dirname := "qiskit/test/mock/backends/london"
    conf_filename := "conf_london.json"
    props_filename := "props_london.json"
    defs_filename := none
    backend_name := "fake_london" }

/-- Record `FakeMontrealV2`: structured (target-based) variant of the fake 27-qubit
Montreal device. -/
def FakeMontrealV2 : FakeBackendFixture :=
  { dirname := "qiskit/test/mock/backends/montreal"
    conf_filename := "conf_montreal.json"
    props_filename := "props_montreal.json"
    defs_filename := some "defs_montreal.json"
    backend_name := "fake_montreal_v2" }

/-- Record `FakeMontreal`: legacy (pulse-backend-based) variant of the fake 27-qubit
Montreal device. -/
def FakeMontreal : FakeBackendFixture :=
  { dirname := "qiskit/test/mock/backends/montreal"
    conf_filename := "conf_montreal.json"
    props_filename := "props_montreal.json"
    defs_filename := some "defs_montreal.json"
    backend_name := "fake_montreal" }

/-- All six accessors of a target succeed (no exception). -/
def Target.resolvable (t : Target) : Prop :=
  (∃ x, t.build_coupling_map = Except.ok x) ∧
  (∃ x, t.operation_names = Except.ok x) ∧
  (∃ x, t.durations = Except.ok x) ∧
  (∃ x, t.instruction_schedule_map = Except.ok x) ∧
  (∃ x, t.timing_constraints = Except.ok x) ∧
  (∃ x, target_to_backend_properties t = Except.ok x)

/-- All six accessors of a backend succeed (no exception). -/
def Backend.resolvable (b : Backend) : Prop :=
  (∃ x, b.basis_gates = Except.ok x) ∧
  (∃ x, b.inst_map = Except.ok x) ∧
  (∃ x, b.coupling_map = Except.ok x) ∧
  (∃ x, b.instruction_durations = Except.ok x) ∧
  (∃ x, b.backend_properties = Except.ok x) ∧
  (∃ x, b.timing_constraints = Except.ok x)

/-- A concrete sample target (5-qubit linear-plus-branch topology) used to
evaluate theorems on closed inputs. -/
def tSample : Target :=
  { build_coupling_map := Except.ok [(0, 1), (1, 2), (1, 3), (3, 4)]
    operation_names := Except.ok ["id", "rz", "sx", "x", "cx"]
    durations := Except.ok [("cx", 300)]
    instruction_schedule_map := Except.ok [("cx", [0, 160])]
    timing_constraints := Except.ok ⟨1, 1, 1, 1⟩
    backend_properties := Except.ok [("gate_error_cx", 1)] }

/-- A concrete sample backend whose accessor values all differ from
those of `tSample`, so precedence is observable. -/
def bSample : Backend :=
  { basis_gates := Except.ok ["u1", "u2", "u3", "cx"]
    inst_map := Except.ok [("x", [0])]
    coupling_map := Except.ok [(0, 1)]
    instruction_durations := Except.ok [("x", 35)]
    backend_properties := Except.ok [("t1_0", 100)]
    timing_constraints := Except.ok ⟨8, 8, 8, 8⟩ }

/-- A sample target whose coupling-map builder raises. -/
def tBroken : Target :=
  { build_coupling_map := Except.error (Err.transpilerError "coupling map unavailable")
    operation_names := Except.ok ["cx"]
    durations := Except.ok []
    instruction_schedule_map := Except.ok []
    timing_constraints := Except.ok ⟨1, 1, 1, 1⟩
    backend_properties := Except.ok [] }

/-- Sample stand-in for the external `level_0_pass_manager` builder. -/
def level0Sample : PassManagerConfig → PassManager :=
  fun _ => ⟨["layout", "routing", "translation"]⟩

/-- Sample stand-in for the external `level_1_pass_manager` builder. -/
def level1Sample : PassManagerConfig → PassManager :=
  fun _ => ⟨["layout", "routing", "translation", "opt1"]⟩

/-- Sample stand-in for the external `level_2_pass_manager` builder. -/
def level2Sample : PassManagerConfig → PassManager :=
  fun _ => ⟨["layout", "routing", "translation", "opt2"]⟩

/-- Sample stand-in for the external `level_3_pass_manager` builder. -/
def level3Sample : PassManagerConfig → PassManager :=
  fun _ => ⟨["layout", "routing", "translation", "opt3"]⟩

/-- The configuration resolved from `tSample` alone with no overrides. -/
def cfgSampleT : PassManagerConfig :=
  { target := some tSample
    basis_gates := some ["id", "rz", "sx", "x", "cx"]
    inst_map := some [("cx", [0, 160])]
    coupling_map := some [(0, 1), (1, 2), (1, 3), (3, 4)]
    instruction_durations := some [("cx", 300)]
    backend_properties := some [("gate_error_cx", 1)]
    timing_constraints := some ⟨1, 1, 1, 1⟩
    layout_method := none
    routing_method := none
    translation_method := none
    scheduling_method := none
    approximation_degree := none
    seed_transpiler := none
    unitary_synthesis_method := "default"
    unitary_synthesis_plugin_config := none
    initial_layout := none }

theorem fillAbsent_of_isSome {α : Type} {o : Option α} (d : Except Err α)
    (h : o.isSome) : fillAbsent o d = Except.ok o := by
  cases o
  · simp at h
  · rfl

theorem fillAbsent_none_ok {α : Type} {d : Except Err α} {a : α}
    (h : d = Except.ok a) : fillAbsent none d = Except.ok (some a) := by
  rw [fillAbsent, h]; rfl

theorem exceptBind_ok_iff {α β : Type} {e : Except Err α} {f : α → Except Err β}
    {b : β} : e.bind f = Except.ok b ↔ ∃ a, e = Except.ok a ∧ f a = Except.ok b := by
  cases e <;> simp [Except.bind]

theorem exceptMap_ok_iff {α β : Type} {e : Except Err α} {f : α → β} {b : β} :
    e.map f = Except.ok b ↔ ∃ a, e = Except.ok a ∧ f a = b := by
  cases e <;> simp [Except.map]

theorem from_backend_ok_pres {b : Backend} {o c : PassManagerConfig}
    (h : PassManagerConfig.from_backend b o = Except.ok c) :
    c.target = o.target ∧
    c.layout_method = o.layout_method ∧
    c.routing_method = o.routing_method ∧
    c.translation_method = o.translation_method ∧
    c.scheduling_method = o.scheduling_method ∧
    c.approximation_degree = o.approximation_degree ∧
    c.seed_transpiler = o.seed_transpiler ∧
    c.unitary_synthesis_method = o.unitary_synthesis_method ∧
    c.unitary_synthesis_plugin_config = o.unitary_synthesis_plugin_config ∧
    c.initial_layout = o.initial_layout ∧
    (o.basis_gates.isSome → c.basis_gates = o.basis_gates) ∧
    (o.inst_map.isSome → c.inst_map = o.inst_map) ∧
    (o.coupling_map.isSome → c.coupling_map = o.coupling_map) ∧
    (o.instruction_durations.isSome → c.instruction_durations = o.instruction_durations) ∧
    (o.backend_properties.isSome → c.backend_properties = o.backend_properties) ∧
    (o.timing_constraints.isSome → c.timing_constraints = o.timing_constraints) := by
  rw [PassManagerConfig.from_backend] at h
  obtain ⟨a1, h1, h⟩ := exceptBind_ok_iff.mp h
  obtain ⟨a2, h2, h⟩ := exceptBind_ok_iff.mp h
  obtain ⟨a3, h3, h⟩ := exceptBind_ok_iff.mp h
  obtain ⟨a4, h4, h⟩ := exceptBind_ok_iff.mp h
  obtain ⟨a5, h5, h⟩ := exceptBind_ok_iff.mp h
  obtain ⟨a6, h6, h⟩ := exceptMap_ok_iff.mp h
  subst h
  refine ⟨rfl, rfl, rfl, rfl, rfl, rfl, rfl, rfl, rfl, rfl, ?_, ?_, ?_, ?_, ?_, ?_⟩
  · intro hs
    rw [fillAbsent_of_isSome _ hs] at h1
    exact (Except.ok.injEq _ _).mp h1.symm
  · intro hs
    rw [fillAbsent_of_isSome _ hs] at h2
    exact (Except.ok.injEq _ _).mp h2.symm
  · intro hs
    rw [fillAbsent_of_isSome _ hs] at h3
    exact (Except.ok.injEq _ _).mp h3.symm
  · intro hs
    rw [fillAbsent_of_isSome _ hs] at h4
    exact (Except.ok.injEq _ _).mp h4.symm
  · intro hs
    rw [fillAbsent_of_isSome _ hs] at h5
    exact (Except.ok.injEq _ _).mp h5.symm
  · intro hs
    rw [fillAbsent_of_isSome _ hs] at h6
    exact (Except.ok.injEq _ _).mp h6.symm

theorem from_backend_of_allSome (b : Backend) {o : PassManagerConfig}
    (h1 : o.basis_gates.isSome) (h2 : o.inst_map.isSome) (h3 : o.coupling_map.isSome)
    (h4 : o.instruction_durations.isSome) (h5 : o.backend_properties.isSome)
    (h6 : o.timing_constraints.isSome) :
    PassManagerConfig.from_backend b o = Except.ok o := by
  rw [PassManagerConfig.from_backend,
    fillAbsent_of_isSome _ h1, fillAbsent_of_isSome _ h2, fillAbsent_of_isSome _ h3,
    fillAbsent_of_isSome _ h4, fillAbsent_of_isSome _ h5, fillAbsent_of_isSome _ h6]
  rfl

theorem resolveConfig_ok_pres
    {backend : Option Backend} {target : Option Target}
    {basis_gates : Option (List String)} {inst_map : Option InstructionScheduleMap}
    {coupling_map : Option CouplingMap}
    {instruction_durations : Option InstructionDurations}
    {backend_properties : Option BackendProperties}
    {timing_constraints : Option TimingConstraints}
    {initial_layout : Option Layout}
    {layout_method routing_method translation_method scheduling_method : Option String}
    {approximation_degree : Option ApproximationDegree}
    {seed_transpiler : Option Int}
    {unitary_synthesis_method : String}
    {unitary_synthesis_plugin_config : Option PluginConfig}
    {cfg : PassManagerConfig}
    (h : resolveConfig backend target basis_gates inst_map coupling_map
        instruction_durations backend_properties timing_constraints initial_layout
        layout_method routing_method translation_method scheduling_method
        approximation_degree seed_transpiler unitary_synthesis_method
        unitary_synthesis_plugin_config = Except.ok cfg) :
    cfg.target = target ∧
    cfg.layout_method = layout_method ∧
    cfg.routing_method = routing_method ∧
    cfg.translation_method = translation_method ∧
    cfg.scheduling_method = scheduling_method ∧
    cfg.approximation_degree = approximation_degree ∧
    cfg.seed_transpiler = seed_transpiler ∧
    cfg.unitary_synthesis_method = unitary_synthesis_method ∧
    cfg.unitary_synthesis_plugin_config = unitary_synthesis_plugin_config ∧
    cfg.initial_layout = initial_layout ∧
    (basis_gates.isSome → cfg.basis_gates = basis_gates) ∧
    (inst_map.isSome → cfg.inst_map = inst_map) ∧
    (coupling_map.isSome → cfg.coupling_map = coupling_map) ∧
    (instruction_durations.isSome → cfg.instruction_durations = instruction_durations) ∧
    (backend_properties.isSome → cfg.backend_properties = backend_properties) ∧
    (timing_constraints.isSome → cfg.timing_constraints = timing_constraints) := by
  rw [resolveConfig.eq_def] at h
  cases target with
  | none =>
    cases backend with
    | none =>
      simp only [Except.bind] at h
      obtain rfl := ((Except.ok.injEq _ _).mp h).symm
      simp
    | some b =>
      simp only [Except.bind] at h
      exact from_backend_ok_pres h
  | some t =>
    obtain ⟨filled, hf, h⟩ := exceptBind_ok_iff.mp h
    obtain ⟨a1, h1, hf⟩ := exceptBind_ok_iff.mp hf
    obtain ⟨a2, h2, hf⟩ := exceptBind_ok_iff.mp hf
    obtain ⟨a3, h3, hf⟩ := exceptBind_ok_iff.mp hf
    obtain ⟨a4, h4, hf⟩ := exceptBind_ok_iff.mp hf
    obtain ⟨a5, h5, hf⟩ := exceptBind_ok_iff.mp hf
    obtain ⟨a6, h6, hf⟩ := exceptMap_ok_iff.mp hf
    subst hf
    cases backend with
    | none =>
      obtain rfl := ((Except.ok.injEq _ _).mp h).symm
      refine ⟨rfl, rfl, rfl, rfl, rfl, rfl, rfl, rfl, rfl, rfl, ?_, ?_, ?_, ?_, ?_, ?_⟩
      · intro hs
        rw [fillAbsent_of_isSome _ hs] at h2
        exact ((Except.ok.injEq _ _).mp h2).symm
      · intro hs
        rw [fillAbsent_of_isSome _ hs] at h4
        exact ((Except.ok.injEq _ _).mp h4).symm
      · intro hs
        rw [fillAbsent_of_isSome _ hs] at h1
        exact ((Except.ok.injEq _ _).mp h1).symm
      · intro hs
        rw [fillAbsent_of_isSome _ hs] at h3
        exact ((Except.ok.injEq _ _).mp h3).symm
      · intro hs
        rw [fillAbsent_of_isSome _ hs] at h6
        exact ((Except.ok.injEq _ _).mp h6).symm
      · intro hs
        rw [fillAbsent_of_isSome _ hs] at h5
        exact ((Except.ok.injEq _ _).mp h5).symm
    | some b =>
      obtain ⟨pt, pl, pr, ptr, ps, pa, pse, pu, pup, pil, pbg, pim, pcm, pid, pbp, ptc⟩ :=
        from_backend_ok_pres h
      refine ⟨pt, pl, pr, ptr, ps, pa, pse, pu, pup, pil, ?_, ?_, ?_, ?_, ?_, ?_⟩
      · intro hs
        rw [fillAbsent_of_isSome _ hs] at h2
        obtain rfl := (Except.ok.injEq _ _).mp h2
        exact pbg hs
      · intro hs
        rw [fillAbsent_of_isSome _ hs] at h4
        obtain rfl := (Except.ok.injEq _ _).mp h4
        exact pim hs
      · intro hs
        rw [fillAbsent_of_isSome _ hs] at h1
        obtain rfl := (Except.ok.injEq _ _).mp h1
        exact pcm hs
      · intro hs
        rw [fillAbsent_of_isSome _ hs] at h3
        obtain rfl := (Except.ok.injEq _ _).mp h3
        exact pid hs
      · intro hs
        rw [fillAbsent_of_isSome _ hs] at h6
        obtain rfl := (Except.ok.injEq _ _).mp h6
        exact pbp hs
      · intro hs
        rw [fillAbsent_of_isSome _ hs] at h5
        obtain rfl := (Except.ok.injEq _ _).mp h5
        exact ptc hs

theorem fillAbsent_total {α : Type} (o : Option α) {d : Except Err α}
    (h : ∃ a, d = Except.ok a) : ∃ r, fillAbsent o d = Except.ok r := by
  obtain ⟨a, ha⟩ := h
  cases o
  · exact ⟨some a, by rw [fillAbsent, ha]; rfl⟩
  · exact ⟨some _, rfl⟩

theorem from_backend_total (b : Backend) (o : PassManagerConfig)
    (hb : b.resolvable) :
    ∃ c, PassManagerConfig.from_backend b o = Except.ok c := by
  obtain ⟨hb1, hb2, hb3, hb4, hb5, hb6⟩ := hb
  obtain ⟨r1, e1⟩ := fillAbsent_total o.basis_gates hb1
  obtain ⟨r2, e2⟩ := fillAbsent_total o.inst_map hb2
  obtain ⟨r3, e3⟩ := fillAbsent_total o.coupling_map hb3
  obtain ⟨r4, e4⟩ := fillAbsent_total o.instruction_durations hb4
  obtain ⟨r5, e5⟩ := fillAbsent_total o.backend_properties hb5
  obtain ⟨r6, e6⟩ := fillAbsent_total o.timing_constraints hb6
  refine ⟨{ o with
    basis_gates := r1
    inst_map := r2
    coupling_map := r3
    instruction_durations := r4
    backend_properties := r5
    timing_constraints := r6 }, ?_⟩
  simp only [PassManagerConfig.from_backend, e1, e2, e3, e4, e5, e6,
    Except.bind, Except.map]

/-- C1: an explicitly supplied (non-absent) value for any of the six derived
fields is used verbatim in the resolved configuration, regardless of any
target or backend; in particular, with a target and an explicit basis gate
set, the resolved basis gate set is the explicit value, not the
operation-name set of the target. -/
theorem explicit_overrides_win
    (backend : Option Backend) (t : Target) (bg : List String)
    (inst_map : Option InstructionScheduleMap) (coupling_map : Option CouplingMap)
    (instruction_durations : Option InstructionDurations)
    (backend_properties : Option BackendProperties)
    (timing_constraints : Option TimingConstraints)
    (initial_layout : Option Layout)
    (layout_method routing_method translation_method scheduling_method : Option String)
    (approximation_degree : Option ApproximationDegree)
    (seed_transpiler : Option Int)
    (unitary_synthesis_method : String)
    (unitary_synthesis_plugin_config : Option PluginConfig)
    (cfg : PassManagerConfig)
    (h : resolveConfig backend (some t) (some bg) inst_map coupling_map
        instruction_durations backend_properties timing_constraints initial_layout
        layout_method routing_method translation_method scheduling_method
        approximation_degree seed_transpiler unitary_synthesis_method
        unitary_synthesis_plugin_config = Except.ok cfg) :
    cfg.basis_gates = some bg ∧
    (coupling_map.isSome → cfg.coupling_map = coupling_map) ∧
    (instruction_durations.isSome → cfg.instruction_durations = instruction_durations) ∧
    (inst_map.isSome → cfg.inst_map = inst_map) ∧
    (timing_constraints.isSome → cfg.timing_constraints = timing_constraints) ∧
    (backend_properties.isSome → cfg.backend_properties = backend_properties) := by
  obtain ⟨-, -, -, -, -, -, -, -, -, -, pbg, pim, pcm, pid, pbp, ptc⟩ :=
    resolveConfig_ok_pres h
  exact ⟨pbg rfl, pcm, pid, pim, ptc, pbp⟩

theorem explicit_overrides_win_witness :
    (resolveConfig (some bSample) (some tSample) (some ["u3"]) none none none none
        none none none none none none none none "default" none =
      Except.ok { cfgSampleT with basis_gates := some ["u3"] }) ∧
    ({ cfgSampleT with basis_gates := some ["u3"] } : PassManagerConfig).basis_gates =
      some ["u3"] :=
  ⟨rfl,
    (explicit_overrides_win (some bSample) tSample ["u3"] none none none none none
      none none none none none none none "default" none
      { cfgSampleT with basis_gates := some ["u3"] } rfl).1⟩

/-- C6: the non-derived fields (initial layout, the four method selectors, the
unitary-synthesis method, approximation degree, seed, and the
unitary-synthesis plugin configuration) appear in the resolved configuration
exactly as supplied by the caller, with no device-derived fallback, even when
a target and a backend are present. -/
theorem nonderived_passthrough
    (backend : Option Backend) (target : Option Target)
    (basis_gates : Option (List String)) (inst_map : Option InstructionScheduleMap)
    (coupling_map : Option CouplingMap)
    (instruction_durations : Option InstructionDurations)
    (backend_properties : Option BackendProperties)
    (timing_constraints : Option TimingConstraints)
    (initial_layout : Option Layout)
    (layout_method routing_method translation_method scheduling_method : Option String)
    (approximation_degree : Option ApproximationDegree)
    (seed_transpiler : Option Int)
    (unitary_synthesis_method : String)
    (unitary_synthesis_plugin_config : Option PluginConfig)
    (cfg : PassManagerConfig)
    (h : resolveConfig backend target basis_gates inst_map coupling_map
        instruction_durations backend_properties timing_constraints initial_layout
        layout_method routing_method translation_method scheduling_method
        approximation_degree seed_transpiler unitary_synthesis_method
        unitary_synthesis_plugin_config = Except.ok cfg) :
    cfg.initial_layout = initial_layout ∧
    cfg.layout_method = layout_method ∧
    cfg.routing_method = routing_method ∧
    cfg.translation_method = translation_method ∧
    cfg.scheduling_method = scheduling_method ∧
    cfg.unitary_synthesis_method = unitary_synthesis_method ∧
    cfg.approximation_degree = approximation_degree ∧
    cfg.seed_transpiler = seed_transpiler ∧
    cfg.unitary_synthesis_plugin_config = unitary_synthesis_plugin_config := by
  obtain ⟨-, pl, pr, ptr, ps, pa, pse, pu, pup, pil, -, -, -, -, -, -⟩ :=
    resolveConfig_ok_pres h
  exact ⟨pil, pl, pr, ptr, ps, pu, pa, pse, pup⟩

theorem nonderived_passthrough_witness :
    ({ cfgSampleT with
        layout_method := some "sabre"
        routing_method := some "stochastic"
        translation_method := some "translator"
        scheduling_method := some "alap"
        seed_transpiler := some 11
        initial_layout := some [(0, 1)] } : PassManagerConfig).initial_layout =
      some [(0, 1)] ∧
    ({ cfgSampleT with
        layout_method := some "sabre"
        routing_method := some "stochastic"
        translation_method := some "translator"
        scheduling_method := some "alap"
        seed_transpiler := some 11
        initial_layout := some [(0, 1)] } : PassManagerConfig).layout_method =
      some "sabre" ∧ True :=
  ⟨(nonderived_passthrough (some bSample) (some tSample) none none none none none
      none (some [(0, 1)]) (some "sabre") (some "stochastic") (some "translator")
      (some "alap") none (some 11) "default" none _ rfl).1,
   (nonderived_passthrough (some bSample) (some tSample) none none none none none
      none (some [(0, 1)]) (some "sabre") (some "stochastic") (some "translator")
      (some "alap") none (some 11) "default" none _ rfl).2.1,
   trivial⟩

/-- C2: with only a target supplied (no backend, no explicit overrides), each
of the six derived fields of the resulting configuration equals the value of
the corresponding target accessor exactly, and every non-derived field is the
value given by the caller. -/
theorem target_only_derivation (t : Target)
    (cm : CouplingMap) (ops : List String) (durs : InstructionDurations)
    (im : InstructionScheduleMap) (tc : TimingConstraints)
    (props : BackendProperties)
    (initial_layout : Option Layout)
    (layout_method routing_method translation_method scheduling_method : Option String)
    (approximation_degree : Option ApproximationDegree)
    (seed_transpiler : Option Int)
    (unitary_synthesis_method : String)
    (unitary_synthesis_plugin_config : Option PluginConfig)
    (h1 : t.build_coupling_map = Except.ok cm)
    (h2 : t.operation_names = Except.ok ops)
    (h3 : t.durations = Except.ok durs)
    (h4 : t.instruction_schedule_map = Except.ok im)
    (h5 : t.timing_constraints = Except.ok tc)
    (h6 : target_to_backend_properties t = Except.ok props) :
    resolveConfig none (some t) none none none none none none initial_layout
      layout_method routing_method translation_method scheduling_method
      approximation_degree seed_transpiler unitary_synthesis_method
      unitary_synthesis_plugin_config =
    Except.ok
      { target := some t
        basis_gates := some ops
        inst_map := some im
        coupling_map := some cm
        instruction_durations := some durs
        backend_properties := some props
        timing_constraints := some tc
        layout_method := layout_method
        routing_method := routing_method
        translation_method := translation_method
        scheduling_method := scheduling_method
        approximation_degree := approximation_degree
        seed_transpiler := seed_transpiler
        unitary_synthesis_method := unitary_synthesis_method
        unitary_synthesis_plugin_config := unitary_synthesis_plugin_config
        initial_layout := initial_layout } := by
  rw [resolveConfig.eq_def]
  simp only [fillAbsent, h1, h2, h3, h4, h5, h6, Except.map, Except.bind]

theorem target_only_derivation_witness :
    resolveConfig none (some tSample) none none none none none none none
      none none none none none none "default" none = Except.ok cfgSampleT :=
  target_only_derivation tSample [(0, 1), (1, 2), (1, 3), (3, 4)]
    ["id", "rz", "sx", "x", "cx"] [("cx", 300)] [("cx", [0, 160])]
    ⟨1, 1, 1, 1⟩ [("gate_error_cx", 1)] none none none none none none none
    "default" none rfl rfl rfl rfl rfl rfl

/-- C3: with a target and a backend both supplied and no explicit overrides,
the target-derived values are already set before backend-based construction
runs, so every derived field of the result equals the target value and the
backend contributes nothing; the result is the same configuration as in the
target-only case. -/
theorem target_precedes_backend (t : Target) (b : Backend)
    (cm : CouplingMap) (ops : List String) (durs : InstructionDurations)
    (im : InstructionScheduleMap) (tc : TimingConstraints)
    (props : BackendProperties)
    (initial_layout : Option Layout)
    (layout_method routing_method translation_method scheduling_method : Option String)
    (approximation_degree : Option ApproximationDegree)
    (seed_transpiler : Option Int)
    (unitary_synthesis_method : String)
    (unitary_synthesis_plugin_config : Option PluginConfig)
    (h1 : t.build_coupling_map = Except.ok cm)
    (h2 : t.operation_names = Except.ok ops)
    (h3 : t.durations = Except.ok durs)
    (h4 : t.instruction_schedule_map = Except.ok im)
    (h5 : t.timing_constraints = Except.ok tc)
    (h6 : target_to_backend_properties t = Except.ok props) :
    resolveConfig (some b) (some t) none none none none none none initial_layout
      layout_method routing_method translation_method scheduling_method
      approximation_degree seed_transpiler unitary_synthesis_method
      unitary_synthesis_plugin_config =
    Except.ok
      { target := some t
        basis_gates := some ops
        inst_map := some im
        coupling_map := some cm
        instruction_durations := some durs
        backend_properties := some props
        timing_constraints := some tc
        layout_method := layout_method
        routing_method := routing_method
        translation_method := translation_method
        scheduling_method := scheduling_method
        approximation_degree := approximation_degree
        seed_transpiler := seed_transpiler
        unitary_synthesis_method := unitary_synthesis_method
        unitary_synthesis_plugin_config := unitary_synthesis_plugin_config
        initial_layout := initial_layout } := by
  rw [resolveConfig.eq_def]
  simp only [fillAbsent, h1, h2, h3, h4, h5, h6, Except.map, Except.bind]
  exact from_backend_of_allSome b rfl rfl rfl rfl rfl rfl

theorem target_precedes_backend_witness :
    resolveConfig (some bSample) (some tSample) none none none none none none
      none none none none none none none "default" none =
    Except.ok cfgSampleT :=
  target_precedes_backend tSample bSample [(0, 1), (1, 2), (1, 3), (3, 4)]
    ["id", "rz", "sx", "x", "cx"] [("cx", 300)] [("cx", [0, 160])]
    ⟨1, 1, 1, 1⟩ [("gate_error_cx", 1)] none none none none none none none
    "default" none rfl rfl rfl rfl rfl rfl

/-- C4: when the optimization level is outside {0,1,2,3} and resolution itself
succeeds, the call fails with exactly the `ValueError` naming the offending
level; no other error can come from the dispatcher. -/
theorem invalid_level_error
    (lvl0 lvl1 lvl2 lvl3 : PassManagerConfig → PassManager)
    (optimization_level : Int)
    (backend : Option Backend) (target : Option Target)
    (basis_gates : Option (List String)) (inst_map : Option InstructionScheduleMap)
    (coupling_map : Option CouplingMap)
    (instruction_durations : Option InstructionDurations)
    (backend_properties : Option BackendProperties)
    (timing_constraints : Option TimingConstraints)
    (initial_layout : Option Layout)
    (layout_method routing_method translation_method scheduling_method : Option String)
    (approximation_degree : Option ApproximationDegree)
    (seed_transpiler : Option Int)
    (unitary_synthesis_method : String)
    (unitary_synthesis_plugin_config : Option PluginConfig)
    (cfg : PassManagerConfig)
    (hl : optimization_level ≠ 0 ∧ optimization_level ≠ 1 ∧
      optimization_level ≠ 2 ∧ optimization_level ≠ 3)
    (h : resolveConfig backend target basis_gates inst_map coupling_map
        instruction_durations backend_properties timing_constraints initial_layout
        layout_method routing_method translation_method scheduling_method
        approximation_degree seed_transpiler unitary_synthesis_method
        unitary_synthesis_plugin_config = Except.ok cfg) :
    generate_preset_pass_manager lvl0 lvl1 lvl2 lvl3 optimization_level backend
      target basis_gates inst_map coupling_map instruction_durations
      backend_properties timing_constraints initial_layout layout_method
      routing_method translation_method scheduling_method approximation_degree
      seed_transpiler unitary_synthesis_method unitary_synthesis_plugin_config =
    Except.error (Err.valueError s!"Invalid optimization level {optimization_level}") := by
  obtain ⟨hl0, hl1, hl2, hl3⟩ := hl
  simp [generate_preset_pass_manager, h, Except.bind, hl0, hl1, hl2, hl3]

theorem invalid_level_error_witness :
    generate_preset_pass_manager level0Sample level1Sample level2Sample level3Sample
      7 none none none none none none none none none none none none none none
      none "default" none =
    Except.error (Err.valueError "Invalid optimization level 7") := by
  have h := invalid_level_error level0Sample level1Sample level2Sample level3Sample
    7 none none none none none none none none none none none none none none
    none "default" none _ ⟨by decide, by decide, by decide, by decide⟩ rfl
  exact h

/-- C5: for a level in {0,1,2,3} the dispatcher selects by direct lookup the
builder of that exact level (0 to the level-0 builder, ..., 3 to the level-3
builder) and returns that builder applied to the resolved configuration; this
holds for all builders and all resolved configurations (the dispatcher never
inspects the configuration), and for every valid level the whole call returns
a pass manager. -/
theorem valid_level_dispatch
    (lvl0 lvl1 lvl2 lvl3 : PassManagerConfig → PassManager)
    (optimization_level : Int)
    (backend : Option Backend) (target : Option Target)
    (basis_gates : Option (List String)) (inst_map : Option InstructionScheduleMap)
    (coupling_map : Option CouplingMap)
    (instruction_durations : Option InstructionDurations)
    (backend_properties : Option BackendProperties)
    (timing_constraints : Option TimingConstraints)
    (initial_layout : Option Layout)
    (layout_method routing_method translation_method scheduling_method : Option String)
    (approximation_degree : Option ApproximationDegree)
    (seed_transpiler : Option Int)
    (unitary_synthesis_method : String)
    (unitary_synthesis_plugin_config : Option PluginConfig)
    (cfg : PassManagerConfig)
    (h : resolveConfig backend target basis_gates inst_map coupling_map
        instruction_durations backend_properties timing_constraints initial_layout
        layout_method routing_method translation_method scheduling_method
        approximation_degree seed_transpiler unitary_synthesis_method
        unitary_synthesis_plugin_config = Except.ok cfg) :
    (optimization_level = 0 →
      generate_preset_pass_manager lvl0 lvl1 lvl2 lvl3 optimization_level backend
        target basis_gates inst_map coupling_map instruction_durations
        backend_properties timing_constraints initial_layout layout_method
        routing_method translation_method scheduling_method approximation_degree
        seed_transpiler unitary_synthesis_method unitary_synthesis_plugin_config =
      Except.ok (lvl0 cfg)) ∧
    (optimization_level = 1 →
      generate_preset_pass_manager lvl0 lvl1 lvl2 lvl3 optimization_level backend
        target basis_gates inst_map coupling_map instruction_durations
        backend_properties timing_constraints initial_layout layout_method
        routing_method translation_method scheduling_method approximation_degree
        seed_transpiler unitary_synthesis_method unitary_synthesis_plugin_config =
      Except.ok (lvl1 cfg)) ∧
    (optimization_level = 2 →
      generate_preset_pass_manager lvl0 lvl1 lvl2 lvl3 optimization_level backend
        target basis_gates inst_map coupling_map instruction_durations
        backend_properties timing_constraints initial_layout layout_method
        routing_method translation_method scheduling_method approximation_degree
        seed_transpiler unitary_synthesis_method unitary_synthesis_plugin_config =
      Except.ok (lvl2 cfg)) ∧
    (optimization_level = 3 →
      generate_preset_pass_manager lvl0 lvl1 lvl2 lvl3 optimization_level backend
        target basis_gates inst_map coupling_map instruction_durations
        backend_properties timing_constraints initial_layout layout_method
        routing_method translation_method scheduling_method approximation_degree
        seed_transpiler unitary_synthesis_method unitary_synthesis_plugin_config =
      Except.ok (lvl3 cfg)) ∧
    ((optimization_level = 0 ∨ optimization_level = 1 ∨ optimization_level = 2 ∨
        optimization_level = 3) →
      ∃ pm,
        generate_preset_pass_manager lvl0 lvl1 lvl2 lvl3 optimization_level backend
          target basis_gates inst_map coupling_map instruction_durations
          backend_properties timing_constraints initial_layout layout_method
          routing_method translation_method scheduling_method approximation_degree
          seed_transpiler unitary_synthesis_method unitary_synthesis_plugin_config =
        Except.ok pm) := by
  refine ⟨?_, ?_, ?_, ?_, ?_⟩
  · rintro rfl
    simp [generate_preset_pass_manager, h, Except.bind]
  · rintro rfl
    simp [generate_preset_pass_manager, h, Except.bind]
  · rintro rfl
    simp [generate_preset_pass_manager, h, Except.bind]
  · rintro rfl
    simp [generate_preset_pass_manager, h, Except.bind]
  · rintro (rfl | rfl | rfl | rfl)
    · exact ⟨lvl0 cfg, by simp [generate_preset_pass_manager, h, Except.bind]⟩
    · exact ⟨lvl1 cfg, by simp [generate_preset_pass_manager, h, Except.bind]⟩
    · exact ⟨lvl2 cfg, by simp [generate_preset_pass_manager, h, Except.bind]⟩
    · exact ⟨lvl3 cfg, by simp [generate_preset_pass_manager, h, Except.bind]⟩

theorem valid_level_dispatch_witness :
    generate_preset_pass_manager level0Sample level1Sample level2Sample level3Sample
      2 none (some tSample) none none none none none none none none none none
      none none none "default" none =
    Except.ok (level2Sample cfgSampleT) :=
  (valid_level_dispatch level0Sample level1Sample level2Sample level3Sample 2
    none (some tSample) none none none none none none none none none none none
    none none "default" none cfgSampleT rfl).2.2.1 rfl

/-- C9: configuration resolution (target accessors and, when a backend is
supplied, backend-based construction) runs before the level check, so any
error raised during resolution surfaces unchanged, whatever the level is; in
particular an invalid level never masks a resolution error. -/
theorem resolution_error_surfaces
    (lvl0 lvl1 lvl2 lvl3 : PassManagerConfig → PassManager)
    (optimization_level : Int)
    (backend : Option Backend) (target : Option Target)
    (basis_gates : Option (List String)) (inst_map : Option InstructionScheduleMap)
    (coupling_map : Option CouplingMap)
    (instruction_durations : Option InstructionDurations)
    (backend_properties : Option BackendProperties)
    (timing_constraints : Option TimingConstraints)
    (initial_layout : Option Layout)
    (layout_method routing_method translation_method scheduling_method : Option String)
    (approximation_degree : Option ApproximationDegree)
    (seed_transpiler : Option Int)
    (unitary_synthesis_method : String)
    (unitary_synthesis_plugin_config : Option PluginConfig)
    (e : Err)
    (h : resolveConfig backend target basis_gates inst_map coupling_map
        instruction_durations backend_properties timing_constraints initial_layout
        layout_method routing_method translation_method scheduling_method
        approximation_degree seed_transpiler unitary_synthesis_method
        unitary_synthesis_plugin_config = Except.error e) :
    generate_preset_pass_manager lvl0 lvl1 lvl2 lvl3 optimization_level backend
      target basis_gates inst_map coupling_map instruction_durations
      backend_properties timing_constraints initial_layout layout_method
      routing_method translation_method scheduling_method approximation_degree
      seed_transpiler unitary_synthesis_method unitary_synthesis_plugin_config =
    Except.error e := by
  simp [generate_preset_pass_manager, h, Except.bind]

theorem resolution_error_surfaces_witness :
    generate_preset_pass_manager level0Sample level1Sample level2Sample level3Sample
      7 none (some tBroken) none none none none none none none none none none
      none none none "default" none =
    Except.error (Err.transpilerError "coupling map unavailable") :=
  resolution_error_surfaces level0Sample level1Sample level2Sample level3Sample 7
    none (some tBroken) none none none none none none none none none none none
    none none "default" none (Err.transpilerError "coupling map unavailable") rfl

/-- C7: configuration resolution is a total (hence pure, side-effect-free)
function of its inputs: for every combination of inputs — including arbitrary,
malformed method-selector strings, which the resolver never looks at — it
returns a configuration, provided the accessors of the device descriptors themselves do not
raise; the resolver itself introduces no error. -/
theorem resolver_total
    (backend : Option Backend) (target : Option Target)
    (basis_gates : Option (List String)) (inst_map : Option InstructionScheduleMap)
    (coupling_map : Option CouplingMap)
    (instruction_durations : Option InstructionDurations)
    (backend_properties : Option BackendProperties)
    (timing_constraints : Option TimingConstraints)
    (initial_layout : Option Layout)
    (layout_method routing_method translation_method scheduling_method : Option String)
    (approximation_degree : Option ApproximationDegree)
    (seed_transpiler : Option Int)
    (unitary_synthesis_method : String)
    (unitary_synthesis_plugin_config : Option PluginConfig)
    (ht : ∀ t, target = some t → t.resolvable)
    (hb : ∀ b, backend = some b → b.resolvable) :
    ∃ cfg, resolveConfig backend target basis_gates inst_map coupling_map
      instruction_durations backend_properties timing_constraints initial_layout
      layout_method routing_method translation_method scheduling_method
      approximation_degree seed_transpiler unitary_synthesis_method
      unitary_synthesis_plugin_config = Except.ok cfg := by
  rw [resolveConfig.eq_def]
  cases target with
  | none =>
    cases backend with
    | none => exact ⟨_, rfl⟩
    | some b =>
      simp only [Except.bind]
      exact from_backend_total b _ (hb b rfl)
  | some t =>
    obtain ⟨ht1, ht2, ht3, ht4, ht5, ht6⟩ := ht t rfl
    obtain ⟨r1, e1⟩ := fillAbsent_total coupling_map ht1
    obtain ⟨r2, e2⟩ := fillAbsent_total basis_gates ht2
    obtain ⟨r3, e3⟩ := fillAbsent_total instruction_durations ht3
    obtain ⟨r4, e4⟩ := fillAbsent_total inst_map ht4
    obtain ⟨r5, e5⟩ := fillAbsent_total timing_constraints ht5
    obtain ⟨r6, e6⟩ := fillAbsent_total backend_properties ht6
    simp only [e1, e2, e3, e4, e5, e6, Except.bind, Except.map]
    cases backend with
    | none => exact ⟨_, rfl⟩
    | some b => exact from_backend_total b _ (hb b rfl)

theorem resolver_total_witness :
    ∃ cfg, resolveConfig (some bSample) (some tSample) none none none none none
      none none (some "banana") (some "mystery-router") (some "bogus")
      (some "whenever") none none "nonstandard" none = Except.ok cfg :=
  resolver_total (some bSample) (some tSample) none none none none none none
    none (some "banana") (some "mystery-router") (some "bogus") (some "whenever")
    none none "nonstandard" none
    (fun t ht => by
      obtain rfl := (Option.some.inj ht).symm
      exact ⟨⟨_, rfl⟩, ⟨_, rfl⟩, ⟨_, rfl⟩, ⟨_, rfl⟩, ⟨_, rfl⟩, ⟨_, rfl⟩⟩)
    (fun b hb => by
      obtain rfl := (Option.some.inj hb).symm
      exact ⟨⟨_, rfl⟩, ⟨_, rfl⟩, ⟨_, rfl⟩, ⟨_, rfl⟩, ⟨_, rfl⟩, ⟨_, rfl⟩⟩)

/-- C8: the whole resolve-then-dispatch computation is deterministic: two
calls to `generate_preset_pass_manager` whose arguments are pairwise equal
produce structurally equal results. -/
theorem deterministic_generation
    (lvl0 lvl1 lvl2 lvl3 : PassManagerConfig → PassManager)
    (optimization_level₁ optimization_level₂ : Int)
    (backend₁ backend₂ : Option Backend) (target₁ target₂ : Option Target)
    (basis_gates₁ basis_gates₂ : Option (List String))
    (inst_map₁ inst_map₂ : Option InstructionScheduleMap)
    (coupling_map₁ coupling_map₂ : Option CouplingMap)
    (instruction_durations₁ instruction_durations₂ : Option InstructionDurations)
    (backend_properties₁ backend_properties₂ : Option BackendProperties)
    (timing_constraints₁ timing_constraints₂ : Option TimingConstraints)
    (initial_layout₁ initial_layout₂ : Option Layout)
    (layout_method₁ layout_method₂ routing_method₁ routing_method₂
      translation_method₁ translation_method₂
      scheduling_method₁ scheduling_method₂ : Option String)
    (approximation_degree₁ approximation_degree₂ : Option ApproximationDegree)
    (seed_transpiler₁ seed_transpiler₂ : Option Int)
    (unitary_synthesis_method₁ unitary_synthesis_method₂ : String)
    (unitary_synthesis_plugin_config₁ unitary_synthesis_plugin_config₂ : Option PluginConfig)
    (q0 : optimization_level₁ = optimization_level₂)
    (q1 : backend₁ = backend₂) (q2 : target₁ = target₂)
    (q3 : basis_gates₁ = basis_gates₂) (q4 : inst_map₁ = inst_map₂)
    (q5 : coupling_map₁ = coupling_map₂)
    (q6 : instruction_durations₁ = instruction_durations₂)
    (q7 : backend_properties₁ = backend_properties₂)
    (q8 : timing_constraints₁ = timing_constraints₂)
    (q9 : initial_layout₁ = initial_layout₂)
    (q10 : layout_method₁ = layout_method₂)
    (q11 : routing_method₁ = routing_method₂)
    (q12 : translation_method₁ = translation_method₂)
    (q13 : scheduling_method₁ = scheduling_method₂)
    (q14 : approximation_degree₁ = approximation_degree₂)
    (q15 : seed_transpiler₁ = seed_transpiler₂)
    (q16 : unitary_synthesis_method₁ = unitary_synthesis_method₂)
    (q17 : unitary_synthesis_plugin_config₁ = unitary_synthesis_plugin_config₂) :
    generate_preset_pass_manager lvl0 lvl1 lvl2 lvl3 optimization_level₁ backend₁
      target₁ basis_gates₁ inst_map₁ coupling_map₁ instruction_durations₁
      backend_properties₁ timing_constraints₁ initial_layout₁ layout_method₁
      routing_method₁ translation_method₁ scheduling_method₁
      approximation_degree₁ seed_transpiler₁ unitary_synthesis_method₁
      unitary_synthesis_plugin_config₁ =
    generate_preset_pass_manager lvl0 lvl1 lvl2 lvl3 optimization_level₂ backend₂
      target₂ basis_gates₂ inst_map₂ coupling_map₂ instruction_durations₂
      backend_properties₂ timing_constraints₂ initial_layout₂ layout_method₂
      routing_method₂ translation_method₂ scheduling_method₂
      approximation_degree₂ seed_transpiler₂ unitary_synthesis_method₂
      unitary_synthesis_plugin_config₂ := by
  subst q0 q1 q2 q3 q4 q5 q6 q7 q8 q9 q10 q11 q12 q13 q14 q15 q16 q17
  rfl

theorem deterministic_generation_witness :
    generate_preset_pass_manager level0Sample level1Sample level2Sample level3Sample
      1 (some bSample) (some tSample) none none none none none none none none
      none none none none none "default" none =
    generate_preset_pass_manager level0Sample level1Sample level2Sample level3Sample
      1 (some bSample) (some tSample) none none none none none none none none
      none none none none none "default" none :=
  deterministic_generation level0Sample level1Sample level2Sample level3Sample
    1 1 (some bSample) (some bSample) (some tSample) (some tSample) none none
    none none none none none none none none none none none none none none
    none none none none none none none none none none "default" "default"
    none none rfl rfl rfl rfl rfl rfl rfl rfl rfl rfl rfl rfl rfl rfl
    rfl rfl rfl rfl

/-- C10: the structured (V2 / target) and legacy (backend) variants of each
mock device reference exactly the same companion data files: the two London
variants share one configuration record and one properties record (and no
pulse-defaults record), the two Montreal variants additionally share one
pulse-defaults record. -/
theorem mock_variants_share_files :
    FakeLondonV2.dirname = FakeLondon.dirname ∧
    FakeLondonV2.conf_filename = FakeLondon.conf_filename ∧
    FakeLondonV2.props_filename = FakeLondon.props_filename ∧
    FakeLondonV2.defs_filename = none ∧
    FakeLondon.defs_filename = none ∧
    FakeMontrealV2.dirname = FakeMontreal.dirname ∧
    FakeMontrealV2.conf_filename = FakeMontreal.conf_filename ∧
    FakeMontrealV2.props_filename = FakeMontreal.props_filename ∧
    FakeMontrealV2.defs_filename = FakeMontreal.defs_filename ∧
    FakeMontrealV2.defs_filename = some "defs_montreal.json" :=
  ⟨rfl, rfl, rfl, rfl, rfl, rfl, rfl, rfl, rfl, rfl⟩

end Qiskit
